import Mathlib

/-!
Verification development for the wt_event_handler fetch-orchestration engine.

The definitions below are a shallow embedding of the Rust sources:
`src/fetch_loop.rs`, `src/api/db.rs`, `src/embed.rs` and
`src/scrapers/scrape_meta.rs`. Timestamps are modelled as `Int` seconds
(chrono `timestamp()`); side effects (webhook posts, filesystem writes,
process termination) are made explicit as fields of result records.
Components of the repository whose source files are not part of the corpus
(the timeout table, the statistics aggregator, the dedup-gate contract) are
modelled from the specification and marked as such in their doc comments.
-/

set_option autoImplicit false

namespace WtEvent

/-- The scrape-type variant of a source, from
`src/scrapers/scraper_resources.rs` as referenced by `src/embed.rs` and
`src/fetch_loop.rs`: `Main | Forum | Changelog`. -/
inductive ScrapeType where
  | Main
  | Forum
  | Changelog
deriving DecidableEq

/-- Modelled from the spec: the textual rendering of a `ScrapeType`
(`scrape_type.to_string()` in `handle_err`); the `Display` impl is not in
the corpus, so we render the variant names. Only used as a context
string whose content no claim depends on. -/
def ScrapeType.text : ScrapeType → String
  | .Main => "Main"
  | .Forum => "Forum"
  | .Changelog => "Changelog"

/-- `EmbedData` from `src/embed.rs`. -/
structure EmbedData where
  scrape_type : ScrapeType
  title : String
  url : String
  img_url : String
  preview_text : String
deriving DecidableEq

/-- `EmbedData::new` from `src/embed.rs` lines 13-22: the image url has every
space replaced by `%20`; every other field is stored as given. -/
def EmbedData.new (title url img_url preview_text : String)
    (scrape_type : ScrapeType) : EmbedData :=
  { scrape_type := scrape_type
    title := title
    url := url
    img_url := img_url.replace " " "%20"
    preview_text := preview_text }

/-- A `reqwest::Error` as observed by `handle_err` in `src/fetch_loop.rs`
lines 162-198: an optional HTTP status plus the classification predicates
the code consults, in the order it consults them, and the rendered message. -/
structure ReqwestFailure where
  status : Option Nat
  is_builder : Bool
  is_redirect : Bool
  is_status : Bool
  is_timeout : Bool
  is_request : Bool
  is_connect : Bool
  is_body : Bool
  is_decode : Bool
  msg : String
deriving DecidableEq

/-- The error enum `NewsError` of `crate::error`. The variant list and the
payload shapes are taken from the match arms of `handle_err` in
`src/fetch_loop.rs` lines 137-205; `crate::error` itself is not in the
corpus, so the catch-all wildcard arm is represented by the single variant
`Unclassified`, the kind the spec assigns to anything outside the closed
taxonomy. -/
inductive NewsError where
  | NoUrlOnPost (name : String) (html : String)
  | MetaCannotBeScraped (st : ScrapeType)
  | SourceTimeout (st : ScrapeType) (msg : String) (resume : Int)
  | BadSelector (selector : String)
  | MonthParse (token : String)
  | SelectedNothing (src : String) (detail : String)
  | SerenityError (detail : String)
  | Reqwest (e : ReqwestFailure)
  | SerdeJson (detail : String)
  | Unclassified (detail : String)
deriving DecidableEq

/-- Modelled from the spec: the Timeout Table of `crate::timeout`
(`src/timeout.rs` is not in the corpus). Per spec section 4.1 it is a map
from source name to absolute `resume_at` timestamp with at most one live
entry per source. -/
structure Timeout where
  entries : List (String × Int)
deriving DecidableEq

/-- Modelled from the spec: `Timeout::new()` as called by `fetch_loop`
(line 40), the empty table. -/
def Timeout.new : Timeout := ⟨[]⟩

/-- Modelled from the spec: `time_out(name, resume_at)` inserts or
overwrites the entry for `name` (last-write-wins, no stacking). -/
def Timeout.time_out (t : Timeout) (name : String) (resume_at : Int) :
    Timeout :=
  ⟨(name, resume_at) :: t.entries.filter (fun p => p.1 ≠ name)⟩

/-- Modelled from the spec: `is_timed_out(name)` is true iff an entry
exists for `name` and `resume_at > now`; expiry is computed on read. -/
def Timeout.is_timed_out (t : Timeout) (name : String) (now : Int) : Bool :=
  match t.entries.find? (fun p => p.1 == name) with
  | some entry => now < entry.2
  | none => false

/-- The counter selector passed to `increment` in `fetch_loop`
(`crate::statistics::Incr`). -/
inductive Incr where
  | FetchCounter
  | NewNews
  | Errors
deriving DecidableEq

/-- Modelled from the spec: the Stats Snapshot of `crate::statistics`
(`src/statistics.rs` is not in the corpus): the counters for fetch
attempts, new items and errors plus the window start time, per spec
section 3. -/
structure Statistics where
  fetch_counter : Nat
  new_news : Nat
  errors : Nat
  window_start : Int
deriving DecidableEq

/-- Modelled from the spec: `Statistics::new()` as called when the `STATS`
global is built in `src/fetch_loop.rs` line 30: all counters zero. -/
def Statistics.new (now : Int) : Statistics :=
  { fetch_counter := 0, new_news := 0, errors := 0, window_start := now }

/-- Modelled from the spec: `increment(incr)` adds one to the selected
counter. -/
def Statistics.increment (s : Statistics) : Incr → Statistics
  | .FetchCounter => { s with fetch_counter := s.fetch_counter + 1 }
  | .NewNews => { s with new_news := s.new_news + 1 }
  | .Errors => { s with errors := s.errors + 1 }

/-- Modelled from the spec: `reset()` zeroes the counters and starts a new
window. -/
def Statistics.reset (s : Statistics) (now : Int) : Statistics :=
  Statistics.new now

/-- The body of the statistics task spawned by `fetch_loop`
(`src/fetch_loop.rs` lines 43-51): post the current snapshot, then reset.
The first component is the snapshot handed to `post`; the second is the
in-memory state afterwards. `post_succeeded` is the outcome of the
best-effort notifier post: the code never consults it, so the reset is
unconditional. -/
def stats_flush_cycle (s : Statistics) (now : Int) (post_succeeded : Bool) :
    Statistics × Statistics :=
  (s, s.reset now)

/-- One row of the `sources` table written by `Database::store_recent_single`
(`src/api/db.rs` lines 27-35): `(url, fetch_date, source)`. -/
structure Row where
  url : String
  fetch_date : Int
  source : String
deriving DecidableEq

/-- The dedup-ledger database of `src/api/db.rs`, reduced to the rows its
queries touch. -/
structure Database where
  rows : List Row
deriving DecidableEq

/-- `Database::new` from `src/api/db.rs` lines 14-26. The connection string
is `sqlite::memory:`, so every call opens a fresh in-memory database and
runs the setup script on it: the resulting table is empty, and nothing from
a previous process lifetime is visible. -/
def Database.new : Database := ⟨[]⟩

/-- `Database::store_recent_single` from `src/api/db.rs` lines 27-35:
inserts one `(url, fetch_date, source)` row unconditionally. -/
def Database.store_recent_single (db : Database) (value : String)
    (source : String) (now : Int) : Database :=
  ⟨db.rows ++ [⟨value, now, source⟩]⟩

/-- `Database::store_recent` from `src/api/db.rs` lines 37-45: inserts one
row per value. -/
def Database.store_recent (db : Database) (values : List String)
    (source : String) (now : Int) : Database :=
  values.foldl (fun d v => d.store_recent_single v source now) db

/-- Whether the pair `(source, url)` is present in the ledger. -/
def Database.seen (db : Database) (source url : String) : Bool :=
  db.rows.any (fun r => r.source == source && r.url == url)

/-- Modelled from the spec: the Dedup Gate contract
`mark_and_check(source_name, url) -> bool` of spec section 6 — true if
newly marked, false if already seen — realised over the `Database` state
that `src/api/db.rs` gives it: the check consults the stored rows and the
mark is `store_recent_single`. The dedup-check half lives in
`crate::json::sources`, which is not in the corpus. -/
def mark_and_check (db : Database) (source url : String) (now : Int) :
    Bool × Database :=
  if db.seen source url then (false, db)
  else (true, db.store_recent_single url source now)

/-- A call to `error_webhook` as made from `handle_err`
(`src/fetch_loop.rs`): the context string and the `recoverable` flag. The
error payload itself is not tracked; only which alert was emitted and
whether it was the final unrecoverable one matters here. -/
structure WebhookCall where
  context : String
  recoverable : Bool
deriving DecidableEq

/-- The explicit effects of one `handle_err` call: webhook posts in order,
filesystem artifacts written as `(path, contents)`, the timeout table
afterwards, and whether the process terminates (panic). -/
structure HandleErrResult where
  webhooks : List WebhookCall
  artifacts : List (String × String)
  timeouts : Timeout
  terminates : Bool
deriving DecidableEq

/-- The `crash_and_burn` closure of `handle_err` (`src/fetch_loop.rs` lines
120-125): post the final offline alert when webhooks are enabled, then
panic. -/
def crash_and_burn (timeouts : Timeout) (hooks : Bool) : HandleErrResult :=
  { webhooks :=
      if hooks then
        [{ context := "The bot is now offline and needs investigation"
           recoverable := false }]
      else []
    artifacts := []
    timeouts := timeouts
    terminates := true }

/-- The `time_out` closure of `handle_err` (`src/fetch_loop.rs` lines
127-134): compute `then = now + 60 * 30`, optionally post a recoverable
`SourceTimeout` alert (context string empty), and record the suspension
for the captured source. -/
def time_out_action (send_webhook_error_message : Bool)
    (timeouts : Timeout) (source : String) (now_utc : Int) :
    HandleErrResult :=
  { webhooks :=
      if send_webhook_error_message then
        [{ context := "", recoverable := true }]
      else []
    artifacts := []
    timeouts := timeouts.time_out source (now_utc + 60 * 30)
    terminates := false }

/-- The sanitization applied to the offending name in the `NoUrlOnPost` arm
(`src/fetch_loop.rs` line 140): replace `/` and `:` by `_`. -/
def sanitize_name (s : String) : String :=
  (s.replace "/" "_").replace ":" "_"

/-- The status prefix built at the top of the `Reqwest` arm
(`src/fetch_loop.rs` lines 163-168). -/
def reqwest_status_text (status : Option Nat) : String :=
  match status with
  | some st =>
      "status: " ++ toString st ++ " was returned and initiated:"
  | none => "no status code related error was returned and initiated:"

/-- The network-failure kinds of the spec taxonomy, in the order the
guard cascade of the `Reqwest` arm tests them. -/
inductive NetKind where
  | Builder
  | Redirect
  | Status
  | Timeout
  | Request
  | Connect
  | Body
  | Decode
  | Other
deriving DecidableEq

/-- The classification implied by the guard cascade of the `Reqwest` arm
(`src/fetch_loop.rs` lines 169-198): the first predicate that holds wins. -/
def classify_reqwest (r : ReqwestFailure) : NetKind :=
  if r.is_builder then .Builder
  else if r.is_redirect then .Redirect
  else if r.is_status then .Status
  else if r.is_timeout then .Timeout
  else if r.is_request then .Request
  else if r.is_connect then .Connect
  else if r.is_body then .Body
  else if r.is_decode then .Decode
  else .Other

/-- `handle_err` from `src/fetch_loop.rs` lines 118-208 as a pure function.
`now_utc` stands for `chrono::offset::Utc::now().timestamp()` inside the
`time_out` closure, `now_local` for `chrono::Local::now().timestamp()` in
the `NoUrlOnPost` arm. The `SerdeJson` arm is `todo!(..)` in the source,
which panics without posting anything. -/
def handle_err (e : NewsError) (scrape_type : ScrapeType) (source : String)
    (timeouts : Timeout) (hooks : Bool) (now_utc now_local : Int) :
    HandleErrResult :=
  match e with
  | .NoUrlOnPost name html =>
      let sanitized_url := sanitize_name name
      let path :=
        "/log/err_html/" ++ sanitized_url ++ "_" ++ toString now_local
          ++ ".html"
      let base := time_out_action true timeouts source now_utc
      { base with artifacts := [(path, html)] }
  | .MetaCannotBeScraped st =>
      { webhooks := [{ context := st.text, recoverable := true }]
        artifacts := []
        timeouts := timeouts
        terminates := false }
  | .SourceTimeout _ _ _ =>
      { webhooks := [], artifacts := [], timeouts := timeouts
        terminates := false }
  | .BadSelector selector =>
      { webhooks :=
          [{ context := "Selector: " ++ selector, recoverable := true }]
        artifacts := []
        timeouts := timeouts
        terminates := false }
  | .MonthParse _ =>
      time_out_action true timeouts source now_utc
  | .SelectedNothing _ _ =>
      time_out_action true timeouts source now_utc
  | .SerenityError _ =>
      { webhooks := [{ context := "", recoverable := true }]
        artifacts := []
        timeouts := timeouts
        terminates := false }
  | .Reqwest r =>
      if r.is_builder then time_out_action true timeouts source now_utc
      else if r.is_redirect then time_out_action true timeouts source now_utc
      else if r.is_status then time_out_action true timeouts source now_utc
      else if r.is_timeout then
        time_out_action false timeouts source now_utc
      else if r.is_request then time_out_action true timeouts source now_utc
      else if r.is_connect then time_out_action true timeouts source now_utc
      else if r.is_body then time_out_action true timeouts source now_utc
      else if r.is_decode then time_out_action true timeouts source now_utc
      else time_out_action true timeouts source now_utc
  | .SerdeJson _ =>
      { webhooks := [], artifacts := [], timeouts := timeouts
        terminates := true }
  | .Unclassified _ =>
      crash_and_burn timeouts hooks

/-- Every variant that `handle_err` matches by name, i.e. everything the
classification table covers; only `Unclassified` reaches the wildcard
escalate-and-terminate arm. -/
def classified (e : NewsError) : Bool :=
  match e with
  | .Unclassified _ => false
  | _ => true

/-- A source as seen by the fetch loop: its unique name and scrape type
(spec section 3; `source.name` and `source.scrape_type` in
`src/fetch_loop.rs`). -/
structure Source where
  name : String
  scrape_type : ScrapeType
deriving DecidableEq

/-- The outcome of one `html_processor(source)` call (`src/fetch_loop.rs`
line 87): either the freshly extracted items or a `NewsError`. The
extractor is an external collaborator; the loop only inspects which case
it got. -/
inductive FetchResult where
  | ok (news : List EmbedData)
  | err (e : NewsError)

/-- The observable state threaded through the fetch loop: the statistics
counters, the timeout table, the dedup database, the notifications sent
(`handle_webhooks`, by item url), the webhook alerts and artifacts from
error handling, whether the process has terminated, and a ghost counter
`iterations` that counts how many times the per-source loop body has
started (it instruments the loop and corresponds to no program variable). -/
structure PassState where
  stats : Statistics
  timeouts : Timeout
  db : Database
  notifications : List String
  webhooks : List WebhookCall
  artifacts : List (String × String)
  terminated : Bool
  iterations : Nat

/-- The initial loop state built by `fetch_loop` before the loop starts
(`src/fetch_loop.rs` lines 33-40): a fresh in-memory database, an empty
timeout table, zeroed statistics. -/
def PassState.init (now : Int) : PassState :=
  { stats := Statistics.new now
    timeouts := Timeout.new
    db := Database.new
    notifications := []
    webhooks := []
    artifacts := []
    terminated := false
    iterations := 0 }

/-- The per-source body of the fetch loop (`src/fetch_loop.rs` lines
84-107). If the source is timed out nothing but the fixed delay happens;
otherwise the fetch counter is incremented and the extraction result is
processed: on success each item is notified (when `hooks`) and counted,
then all urls are stored; on failure the error counter is incremented and
`handle_err` runs. `res` is the result the extractor would return for this
source. -/
def loop_body (hooks : Bool) (st : PassState) (src : Source)
    (res : FetchResult) (now_utc now_local : Int) : PassState :=
  let st := { st with iterations := st.iterations + 1 }
  if st.timeouts.is_timed_out src.name now_utc then st
  else
    let st := { st with stats := st.stats.increment .FetchCounter }
    match res with
    | .ok news =>
        let upd :=
          news.foldl
            (fun (acc : List String × Statistics) item =>
              (acc.1 ++ (if hooks then [item.url] else []),
               acc.2.increment .NewNews))
            (st.notifications, st.stats)
        { st with
          notifications := upd.1
          stats := upd.2
          db := st.db.store_recent (news.map (fun n => n.url)) src.name
            now_utc }
    | .err e =>
        let st := { st with stats := st.stats.increment .Errors }
        let r :=
          handle_err e src.scrape_type src.name st.timeouts hooks now_utc
            now_local
        { st with
          timeouts := r.timeouts
          webhooks := st.webhooks ++ r.webhooks
          artifacts := st.artifacts ++ r.artifacts
          terminated := r.terminates }

/-- One full pass of the fetch loop over the source list, in registry
order. A panic inside `handle_err` ends the process, so once `terminated`
is set no further source is visited. `oracle` supplies the extraction
result per source name. -/
def run_pass (hooks : Bool) (oracle : String → FetchResult)
    (now_utc now_local : Int) : PassState → List Source → PassState
  | st, [] => st
  | st, src :: rest =>
      if st.terminated then st
      else
        run_pass hooks oracle now_utc now_local
          (loop_body hooks st src (oracle src.name) now_utc now_local) rest

/-- The exit decision after one pass (`src/fetch_loop.rs` lines 108-114
plus the panic path): a panic during the pass ends the process with the
Rust panic exit status 101; otherwise, in non-daemon mode (`!hooks`),
`exit(0)`; in daemon mode the loop continues (`none`). -/
def pass_exit (hooks : Bool) (final : PassState) : Option Int :=
  if final.terminated then some 101
  else if hooks then none
  else some 0

/-! ### Helper lemmas -/

/-- After `time_out s r`, the source `s` is timed out at probe time `p`
exactly when `p < r`. -/
theorem is_timed_out_after_time_out (t : Timeout) (s : String) (r p : Int) :
    (t.time_out s r).is_timed_out s p = decide (p < r) := by
  simp [Timeout.is_timed_out, Timeout.time_out, List.find?]

/-- The loop body always advances the ghost iteration counter by one. -/
theorem loop_body_iterations (hooks : Bool) (st : PassState) (src : Source)
    (res : FetchResult) (now_utc now_local : Int) :
    (loop_body hooks st src res now_utc now_local).iterations =
      st.iterations + 1 := by
  unfold loop_body
  cases res <;> dsimp only <;> split <;> rfl

/-- The loop body leaves the termination flag untouched unless `handle_err`
terminates. -/
theorem loop_body_terminated (hooks : Bool) (st : PassState) (src : Source)
    (res : FetchResult) (now_utc now_local : Int) :
    (loop_body hooks st src res now_utc now_local).terminated =
      match res with
      | .ok _ => st.terminated
      | .err e =>
          if st.timeouts.is_timed_out src.name now_utc then st.terminated
          else
            (handle_err e src.scrape_type src.name st.timeouts hooks now_utc
              now_local).terminates := by
  unfold loop_body
  cases res <;> dsimp only <;> split <;> simp_all

/-- If a pass ends not terminated, every source was visited: the iteration
counter grew by the length of the source list. -/
theorem run_pass_iterations (hooks : Bool) (oracle : String → FetchResult)
    (now_utc now_local : Int) :
    ∀ (l : List Source) (st : PassState),
      (run_pass hooks oracle now_utc now_local st l).terminated = false →
      (run_pass hooks oracle now_utc now_local st l).iterations =
        st.iterations + l.length := by
  intro l
  induction l with
  | nil => intro st _; simp [run_pass]
  | cons src rest ih =>
      intro st h
      rw [run_pass] at h ⊢
      by_cases hst : st.terminated = true
      · rw [if_pos hst] at h
        simp [hst] at h
      · rw [if_neg hst] at h ⊢
        rw [ih _ h, loop_body_iterations]
        simp only [List.length_cons]
        omega

/-! ### Claim theorems -/

/-- C1: the Dedup Gate returns true on the first `mark_and_check` call for
a pair and false on a repeat within the same process, but the durability
half of the claim fails on the code: `Database::new` (`src/api/db.rs` line
15) opens `sqlite::memory:`, so a process restart begins from an empty
ledger and the repeated call returns true again instead of false. -/
theorem dedup_gate_restart_returns_true_again :
    (mark_and_check Database.new "wt main" "https://a/u1" 0).1 = true ∧
    (mark_and_check (mark_and_check Database.new "wt main" "https://a/u1"
        0).2 "wt main" "https://a/u1" 1).1 = false ∧
    (mark_and_check Database.new "wt main" "https://a/u1" 2).1 = true := by
  refine ⟨rfl, ?_, rfl⟩
  decide

/-- C3: after `time_out(s, t + 1800)`, `is_timed_out(s)` holds at exactly
the probe times strictly below `t + 1800` (so all of `[t, t + 1800)` and
none from `t + 1800` on), and a second `time_out` on the same source
overwrites the first: only the latest `resume_at` governs `is_timed_out`. -/
theorem time_out_governs_is_timed_out (t : Timeout) (s : String) (tm : Int) :
    (∀ p : Int, (t.time_out s (tm + 1800)).is_timed_out s p =
      decide (p < tm + 1800)) ∧
    (∀ r₁ r₂ p : Int,
      ((t.time_out s r₁).time_out s r₂).is_timed_out s p = decide (p < r₂)) :=
  ⟨fun p => is_timed_out_after_time_out t s (tm + 1800) p,
   fun r₁ r₂ p => is_timed_out_after_time_out (t.time_out s r₁) s r₂ p⟩

/-- C5: on `BadSelector` (a selector assumed present is missing), exactly
one recoverable escalation is posted and nothing else happens: the timeout
table is returned unchanged, no artifact is written, and the process keeps
running. -/
theorem bad_selector_escalate_and_continue (selector : String)
    (stp : ScrapeType) (src : String) (t : Timeout) (hooks : Bool)
    (now_utc now_local : Int) :
    handle_err (.BadSelector selector) stp src t hooks now_utc now_local =
      { webhooks := [{ context := "Selector: " ++ selector
                       recoverable := true }]
        artifacts := []
        timeouts := t
        terminates := false } := rfl

/-- C6: on `NoUrlOnPost`, the raw document is written to
`/log/err_html/<sanitized name>_<timestamp>.html` where the sanitization
replaces `/` and `:` by `_`; then the source is suspended until
`now + 30 * 60` (so `is_timed_out` holds exactly until then) and one
escalation is posted, and the process keeps running. -/
theorem no_url_on_post_artifact_and_suspend (name html : String)
    (stp : ScrapeType) (src : String) (t : Timeout)
    (hooks : Bool) (now_utc now_local : Int) :
    (handle_err (.NoUrlOnPost name html) stp src t hooks now_utc now_local =
      { webhooks := [{ context := "", recoverable := true }]
        artifacts := [("/log/err_html/" ++ sanitize_name name ++ "_"
          ++ toString now_local ++ ".html", html)]
        timeouts := t.time_out src (now_utc + 60 * 30)
        terminates := false }) ∧
    (∀ p : Int,
      ((handle_err (.NoUrlOnPost name html) stp src t hooks now_utc
        now_local).timeouts).is_timed_out src p =
          decide (p < now_utc + 60 * 30)) :=
  ⟨rfl, fun p => is_timed_out_after_time_out t src (now_utc + 60 * 30) p⟩

/-- C8: three increments of the new-item counter starting from a fresh
snapshot followed by a flush hand the notifier a snapshot whose new-item
count is exactly 3 and leave the in-memory count at 0; and the flush
result is the same whether or not the notifier post succeeds (the reset is
unconditional). -/
theorem stats_three_increments_flush (t0 now now2 : Int) (b b₁ b₂ : Bool)
    (s : Statistics) :
    (stats_flush_cycle ((((Statistics.new t0).increment
      .NewNews).increment .NewNews).increment .NewNews) now b).1.new_news
        = 3 ∧
    (stats_flush_cycle ((((Statistics.new t0).increment
      .NewNews).increment .NewNews).increment .NewNews) now b).2.new_news
        = 0 ∧
    stats_flush_cycle s now2 b₁ = stats_flush_cycle s now2 b₂ :=
  ⟨rfl, rfl, rfl⟩

/-- C9: `EmbedData::new` stores the image url with every space replaced by
`%20` and every other field exactly as given. -/
theorem embed_data_new_fields (title url img_url preview_text : String)
    (stp : ScrapeType) :
    (EmbedData.new title url img_url preview_text stp).title = title ∧
    (EmbedData.new title url img_url preview_text stp).url = url ∧
    (EmbedData.new title url img_url preview_text stp).img_url =
      img_url.replace " " "%20" ∧
    (EmbedData.new title url img_url preview_text stp).preview_text =
      preview_text ∧
    (EmbedData.new title url img_url preview_text stp).scrape_type = stp :=
  ⟨rfl, rfl, rfl, rfl, rfl⟩

/-- C2: an error falling outside the classified taxonomy takes the
escalate-and-terminate path: with webhooks enabled exactly one final
unrecoverable alert is posted and the process terminates with the timeout
table untouched; no classified kind ever posts that final alert (every
alert a classified kind posts is recoverable); and once terminated, a pass
visits no further source. -/
theorem unclassified_escalates_and_terminates :
    (∀ (msg : String) (stp : ScrapeType) (src : String) (t : Timeout)
        (now_utc now_local : Int),
      handle_err (.Unclassified msg) stp src t true now_utc now_local =
        { webhooks :=
            [{ context := "The bot is now offline and needs investigation"
               recoverable := false }]
          artifacts := []
          timeouts := t
          terminates := true }) ∧
    (∀ (e : NewsError), classified e = true →
      ∀ (stp : ScrapeType) (src : String) (t : Timeout) (hooks : Bool)
          (now_utc now_local : Int),
        ((handle_err e stp src t hooks now_utc now_local).webhooks.all
          (fun w => w.recoverable)) = true) ∧
    (∀ (hooks : Bool) (oracle : String → FetchResult)
        (now_utc now_local : Int) (st : PassState) (l : List Source),
      st.terminated = true →
      run_pass hooks oracle now_utc now_local st l = st) := by
  refine ⟨fun msg stp src t nU nL => rfl, ?_, ?_⟩
  · intro e hcl stp src t hooks nU nL
    cases e with
    | Reqwest r =>
        simp only [handle_err, time_out_action]
        split <;> [skip; split] <;> [skip; skip; split] <;>
          [skip; skip; skip; split] <;>
          [skip; skip; skip; skip; split] <;>
          [skip; skip; skip; skip; skip; split] <;>
          [skip; skip; skip; skip; skip; skip; split] <;>
          [skip; skip; skip; skip; skip; skip; skip; split] <;> simp
    | Unclassified msg => simp [classified] at hcl
    | _ => simp [handle_err, time_out_action]
  · intro hooks oracle nU nL st l h
    cases l with
    | nil => rfl
    | cons src rest => rw [run_pass, if_pos h]

/-- Witness for C2 at concrete inputs. -/
theorem unclassified_escalates_and_terminates_witness :
    (handle_err (.Unclassified "boom") .Main "wt main" Timeout.new true 0 0
      = { webhooks :=
            [{ context := "The bot is now offline and needs investigation"
               recoverable := false }]
          artifacts := []
          timeouts := Timeout.new
          terminates := true }) ∧
    ((handle_err (.BadSelector "p") .Main "wt main" Timeout.new true 0
        0).webhooks.all (fun w => w.recoverable)) = true ∧
    run_pass true (fun _ => .ok []) 0 0
      { PassState.init 0 with terminated := true } [⟨"wt main", .Main⟩] =
      { PassState.init 0 with terminated := true } :=
  ⟨unclassified_escalates_and_terminates.1 "boom" .Main "wt main"
      Timeout.new 0 0,
   unclassified_escalates_and_terminates.2.1 (.BadSelector "p") rfl .Main
      "wt main" Timeout.new true 0 0,
   unclassified_escalates_and_terminates.2.2 true (fun _ => .ok []) 0 0
      { PassState.init 0 with terminated := true } [⟨"wt main", .Main⟩]
      rfl⟩

/-- C4: every `reqwest` failure suspends the source for 30 minutes (the
timeout table gains `now + 60 * 30` for it) without terminating or writing
artifacts, and an escalation is posted exactly when the guard cascade does
not classify the failure as a timeout. -/
theorem reqwest_timeout_silent_others_escalate (r : ReqwestFailure)
    (stp : ScrapeType) (src : String) (t : Timeout) (hooks : Bool)
    (now_utc now_local : Int) :
    (handle_err (.Reqwest r) stp src t hooks now_utc now_local).timeouts =
      t.time_out src (now_utc + 60 * 30) ∧
    (handle_err (.Reqwest r) stp src t hooks now_utc
      now_local).terminates = false ∧
    (handle_err (.Reqwest r) stp src t hooks now_utc
      now_local).artifacts = [] ∧
    (handle_err (.Reqwest r) stp src t hooks now_utc now_local).webhooks =
      (if classify_reqwest r = .Timeout then []
       else [{ context := "", recoverable := true }]) := by
  obtain ⟨status, b1, b2, b3, b4, b5, b6, b7, b8, msg⟩ := r
  cases b1 <;> cases b2 <;> cases b3 <;> cases b4 <;> cases b5 <;>
    cases b6 <;> cases b7 <;> cases b8 <;>
    simp [handle_err, time_out_action, classify_reqwest]

/-- C7: in non-daemon mode (`hooks = false`), a pass that completes
without the escalate-and-terminate path ends the process with exit status
0, and the per-source loop body ran exactly once per source. -/
theorem single_pass_exits_zero (oracle : String → FetchResult)
    (now_utc now_local : Int) (st : PassState) (sources : List Source)
    (h : (run_pass false oracle now_utc now_local st sources).terminated =
      false) :
    pass_exit false (run_pass false oracle now_utc now_local st sources) =
      some 0 ∧
    (run_pass false oracle now_utc now_local st sources).iterations =
      st.iterations + sources.length := by
  refine ⟨?_, run_pass_iterations false oracle now_utc now_local sources
    st h⟩
  simp [pass_exit, h]

/-- Witness for C7: one source, successful empty fetch. -/
theorem single_pass_exits_zero_witness :
    (run_pass false (fun _ => .ok []) 0 0 (PassState.init 0)
      [⟨"wt main", .Main⟩]).terminated = false ∧
    (pass_exit false (run_pass false (fun _ => .ok []) 0 0
      (PassState.init 0) [⟨"wt main", .Main⟩]) = some 0 ∧
     (run_pass false (fun _ => .ok []) 0 0 (PassState.init 0)
      [⟨"wt main", .Main⟩]).iterations = (PassState.init 0).iterations
        + 1) :=
  ⟨rfl, single_pass_exits_zero (fun _ => .ok []) 0 0 (PassState.init 0)
    [⟨"wt main", .Main⟩] rfl⟩

/-- C10: whenever the fetch of a non-suspended source fails, the loop body adds
exactly one to the error counter, whatever the error is (the increment
happens before classification, so even a terminating classification has
been counted); and the `SourceTimeout` classification itself is a no-op:
no webhook, no artifact, no timeout change, no termination — so a
recurring suspension notice still contributes to the error count. -/
theorem errors_counted_before_classification :
    (∀ (hooks : Bool) (st : PassState) (src : Source) (e : NewsError)
        (now_utc now_local : Int),
      st.timeouts.is_timed_out src.name now_utc = false →
      (loop_body hooks st src (.err e) now_utc now_local).stats.errors =
        st.stats.errors + 1) ∧
    (∀ (stp stp2 : ScrapeType) (msg : String) (resume : Int)
        (src : String) (t : Timeout) (hooks : Bool)
        (now_utc now_local : Int),
      handle_err (.SourceTimeout stp msg resume) stp2 src t hooks now_utc
        now_local =
        { webhooks := [], artifacts := [], timeouts := t
          terminates := false }) := by
  constructor
  · intro hooks st src e now_utc now_local h
    unfold loop_body
    rw [if_neg (by simp [h])]
    rfl
  · intro stp stp2 msg resume src t hooks now_utc now_local
    rfl

/-- Witness for C10: a fresh state and a recurring suspension notice. -/
theorem errors_counted_before_classification_witness :
    ((PassState.init 0).timeouts.is_timed_out "wt main" 0 = false ∧
     (loop_body true (PassState.init 0) ⟨"wt main", .Main⟩
        (.err (.SourceTimeout .Main "m" 1800)) 0 0).stats.errors =
       (PassState.init 0).stats.errors + 1) ∧
    handle_err (.SourceTimeout .Main "m" 1800) .Main "wt main" Timeout.new
      true 0 0 =
      { webhooks := [], artifacts := [], timeouts := Timeout.new
        terminates := false } :=
  ⟨⟨rfl, errors_counted_before_classification.1 true (PassState.init 0)
      ⟨"wt main", .Main⟩ (.SourceTimeout .Main "m" 1800) 0 0 rfl⟩,
   errors_counted_before_classification.2 .Main .Main "m" 1800 "wt main"
      Timeout.new true 0 0⟩

end WtEvent
